import Mathlib

/-!
Shallow embedding of the visual-parity pipeline scripts
(scripts/parity_test.py, scripts/parity_baseline.py, scripts/parity_gate.py,
scripts/extract_parity_metrics.py).

Modelling conventions:
- Python floats are modelled as exact rationals (ℚ); all the constants involved
  (weights 0.6/0.4, thresholds, diff percentages) are exact decimals, so the
  rational model agrees with the float computation on every value the claims use.
- Python dicts with a fixed key set are modelled as structures whose fields are
  the keys, with `Option` for keys that a code path may leave absent.
- External effects (the capture subprocess, the frame file on disk, the Node
  pixel-diff tool) are modelled as an `Env` of run-indexed oracles; the scripts
  are pure functions of that environment.
- Python `x in list` membership tests become disjunctions; `str in str` becomes
  list-infix on the character lists; `list.sort` / `sorted` (which are stable)
  become `List.insertionSort`, which Mathlib proves stable-compatible.
-/

namespace HiwaveParity

/-! ## parity_test.py -/

/-- Python substring test `pat in s` (scripts/parity_test.py uses it on case ids). -/
def str_contains (s pat : String) : Bool := decide (pat.data <:+: s.data)

/-- THRESHOLDS dict of scripts/parity_test.py (lines 70-79). -/
def THRESHOLDS : List (String × ℚ) :=
  [("layout_structure", 5), ("solid_backgrounds", 8), ("images_replaced", 10),
   ("gradients_effects", 15), ("form_controls", 12), ("text_rendering", 20),
   ("sticky_scroll", 25), ("default", 15)]

/-- Dictionary access THRESHOLDS[k]. All keys used by the code are present. -/
def thresh (k : String) : ℚ := (THRESHOLDS.lookup k).getD 0

/-- get_threshold of scripts/parity_test.py (lines 82-94). -/
def get_threshold (case_id : String) : ℚ :=
  if str_contains case_id "form" then thresh "form_controls"
  else if str_contains case_id "image" || str_contains case_id "gallery" then
    thresh "images_replaced"
  else if str_contains case_id "gradient" then thresh "gradients_effects"
  else if str_contains case_id "sticky" || str_contains case_id "scroll" then
    thresh "sticky_scroll"
  else if str_contains case_id "typography" || str_contains case_id "text" then
    thresh "text_rendering"
  else thresh "default"

/-- Spec-side reading of the threshold policy: an explicit ordered list of
(predicate, threshold) rules evaluated in order with a default fallback
(spec section 9, "String-keyword-based threshold/category selection"). -/
def threshold_rules : List ((String → Bool) × ℚ) :=
  [(fun s => str_contains s "form", 12),
   (fun s => str_contains s "image" || str_contains s "gallery", 10),
   (fun s => str_contains s "gradient", 15),
   (fun s => str_contains s "sticky" || str_contains s "scroll", 25),
   (fun s => str_contains s "typography" || str_contains s "text", 20)]

/-- First-match evaluation of an ordered rule list with a default fallback. -/
def first_match (rules : List ((String → Bool) × ℚ)) (s : String) (dflt : ℚ) : ℚ :=
  match rules with
  | [] => dflt
  | (p, v) :: rest => if p s then v else first_match rest s dflt

/-- Python min over a nonempty list (0 on [] , a case the scripts never hit). -/
def list_min (l : List ℚ) : ℚ :=
  match l with
  | [] => 0
  | x :: xs => xs.foldl min x

/-- Python max over a nonempty list (0 on [] , a case the scripts never hit). -/
def list_max (l : List ℚ) : ℚ :=
  match l with
  | [] => 0
  | x :: xs => xs.foldl max x

/-- statistics.median: middle element of the sorted list for odd length,
average of the two middle elements for even length (value on [] is junk;
the caller guards against the empty list). -/
def median (l : List ℚ) : ℚ :=
  let s := List.insertionSort (fun a b : ℚ => a ≤ b) l
  let n := l.length
  if n % 2 = 1 then s.getD (n / 2) 0
  else (s.getD (n / 2 - 1) 0 + s.getD (n / 2) 0) / 2

/-- External-effect oracles for run_test, indexed by the 0-based run index:
whether the Chrome baseline.png exists, whether run_rustkit_capture fails (and
its message), whether the captured frame.ppm exists afterwards, and the pixel
comparison outcome (an error, or a result dict whose diffPercent may be absent). -/
structure Env where
  baselineExists : Bool
  captureError : ℕ → Option String
  frameExists : ℕ → Bool
  pixelResult : ℕ → Except String (Option ℚ)

/-- The capture-and-compare loop of run_test (scripts/parity_test.py lines
320-342): run indices idx, idx+1, ... for k iterations; the first failing step
returns the error run_test records, otherwise the list of per-run diff
percentages (diffPercent defaulting to 100.0) is collected in order. -/
def pixel_runs_loop (env : Env) : ℕ → ℕ → Except String (List ℚ)
  | 0, _ => .ok []
  | k + 1, run_idx =>
    match env.captureError run_idx with
    | some e => .error ("Capture failed: " ++ e)
    | none =>
      if env.frameExists run_idx then
        match env.pixelResult run_idx with
        | .error e => .error ("Pixel compare error: " ++ e)
        | .ok pr =>
          match pixel_runs_loop env k (run_idx + 1) with
          | .error e => .error e
          | .ok rest => .ok (pr.getD 100 :: rest)
      else .error "No RustKit capture output"

/-- The result dict of run_test. Keys a code path may leave unset are Option
(none = key absent). The pixel/styles/rects sub-dicts carry no information the
claims need and are left to the environment. -/
structure TestResult where
  case_id : String
  threshold : ℚ
  passed : Bool
  error : Option String
  pixel_runs : Option (List ℚ)
  diff_pct_median : Option ℚ
  diff_pct_min : Option ℚ
  diff_pct_max : Option ℚ
  diff_pct_variance : Option ℚ
  stable : Option Bool
  diff_pct : Option ℚ
deriving DecidableEq

/-- The result dict as initialized at the top of run_test (lines 298-306). -/
def initResult (case_id : String) : TestResult :=
  { case_id := case_id, threshold := get_threshold case_id, passed := false,
    error := none, pixel_runs := none, diff_pct_median := none,
    diff_pct_min := none, diff_pct_max := none, diff_pct_variance := none,
    stable := none, diff_pct := none }

/-- run_test of scripts/parity_test.py (lines 284-370). Early returns on a
missing baseline, a capture failure, missing capture output, or a pixel-compare
error; otherwise records the per-run diff series, the stability statistics
(only when the series is nonempty), the representative diff (median, falling
back to 100 when there were no runs) and the pass verdict. -/
def run_test (env : Env) (case_id : String) (iterations : ℕ) (max_variance : ℚ) :
    TestResult :=
  if env.baselineExists then
    match pixel_runs_loop env iterations 0 with
    | .error e => { initResult case_id with error := some e }
    | .ok run_diffs =>
      let result := { initResult case_id with pixel_runs := some run_diffs }
      let result :=
        match run_diffs with
        | [] => result
        | _ :: _ =>
          let mn := list_min run_diffs
          let mx := list_max run_diffs
          { result with
            diff_pct_median := some (median run_diffs),
            diff_pct_min := some mn,
            diff_pct_max := some mx,
            diff_pct_variance := some (mx - mn),
            stable := some (decide (3 ≤ iterations) && decide (mx - mn ≤ max_variance)) }
      let diff_pct := result.diff_pct_median.getD 100
      { result with diff_pct := some diff_pct,
                    passed := decide (diff_pct ≤ result.threshold) }
  else { initResult case_id with error := some "No Chrome baseline" }

/-! ## parity_baseline.py -/

/-- Group weight for built-in pages (scripts/parity_baseline.py line 44). -/
def BUILTINS_WEIGHT : ℚ := 6/10

/-- Group weight for websuite cases (line 45). -/
def WEBSUITE_WEIGHT : ℚ := 4/10

/-- Shared Tier-A pass threshold (line 46). -/
def TIER_A_THRESHOLD : ℚ := 25

/-- An entry of the layout_stats issues list built by analyze_layout
(lines 232-236): a dict with keys type, node_type, depth. -/
structure Issue where
  issue_type : String
  node_type : String
  depth : ℕ
deriving DecidableEq

/-- A node of the layout tree JSON consumed by analyze_layout: a rect
(x, y, width, height), a declared type string, and child nodes. -/
inductive LayoutNode where
  | node (x y width height : ℚ) (node_type : String) (children : List LayoutNode)

mutual

/-- The issues accumulated by the walk closure of analyze_layout
(lines 214-248) for one node visited at the given depth: a zero_size issue when
the node has no positive area, sits at depth > 1, and its type is neither
text nor anonymous_block, followed by the issues of the children at depth + 1. -/
def walk_issues : LayoutNode → ℕ → List Issue
  | .node _ _ w h ty cs, d =>
    (if ¬(0 < w ∧ 0 < h) ∧ 1 < d ∧ ty ≠ "text" ∧ ty ≠ "anonymous_block"
      then [⟨"zero_size", ty, d⟩] else [])
    ++ walk_issues_list cs (d + 1)

/-- walk over a child list, all at the same depth, in order. -/
def walk_issues_list : List LayoutNode → ℕ → List Issue
  | [], _ => []
  | c :: cs, d => walk_issues c d ++ walk_issues_list cs d

end

/-- analyze_layout starts the walk at the root with depth 0 (line 251). -/
def analyze_issues (root : LayoutNode) : List Issue := walk_issues root 0

/-- A box description used to state what the walk flags: the node type, rect
width/height, and the depth at which the walk visits the box. -/
structure BoxInfo where
  node_type : String
  width : ℚ
  height : ℚ
  depth : ℕ
deriving DecidableEq

mutual

/-- Every box of the tree, with the depth the walk sees it at, in visit order. -/
def walk_boxes : LayoutNode → ℕ → List BoxInfo
  | .node _ _ w h ty cs, d => ⟨ty, w, h, d⟩ :: walk_boxes_list cs (d + 1)

/-- walk_boxes over a child list at one depth. -/
def walk_boxes_list : List LayoutNode → ℕ → List BoxInfo
  | [], _ => []
  | c :: cs, d => walk_boxes c d ++ walk_boxes_list cs d

end

/-- The per-box flagging rule of analyze_layout, as a partial map from a box to
the issue it contributes: zero rendered area, depth strictly greater than 1,
type neither text nor anonymous_block. -/
def zero_size_pick (b : BoxInfo) : Option Issue :=
  if ¬(0 < b.width ∧ 0 < b.height) ∧ 1 < b.depth ∧
      b.node_type ≠ "text" ∧ b.node_type ≠ "anonymous_block"
  then some ⟨"zero_size", b.node_type, b.depth⟩ else none

/-- The clusters dict of classify_issues (lines 262-267): its key set is fixed
to sizing_layout, paint, text, images. -/
structure Clusters where
  sizing_layout : ℕ
  paint : ℕ
  text : ℕ
  images : ℕ
deriving DecidableEq

/-- The clusters dict as a key-value list in its Python insertion order. -/
def clusters_to_list (c : Clusters) : List (String × ℕ) :=
  [("sizing_layout", c.sizing_layout), ("paint", c.paint),
   ("text", c.text), ("images", c.images)]

/-- One loop step of classify_issues (lines 269-278): a zero_size issue bumps
the bucket selected by its node_type; other issue types are ignored. -/
def bump (c : Clusters) (i : Issue) : Clusters :=
  if i.issue_type = "zero_size" then
    if i.node_type = "form_control" ∨ i.node_type = "block" then
      { c with sizing_layout := c.sizing_layout + 1 }
    else if i.node_type = "text" then { c with text := c.text + 1 }
    else if i.node_type = "image" then { c with images := c.images + 1 }
    else { c with sizing_layout := c.sizing_layout + 1 }
  else c

/-- classify_issues of scripts/parity_baseline.py (lines 260-280). -/
def classify_issues (issues : List Issue) : Clusters :=
  issues.foldl bump ⟨0, 0, 0, 0⟩

/-- The bucket an issue's node_type selects in classify_issues. -/
def bucket_of (i : Issue) : String :=
  if i.node_type = "form_control" ∨ i.node_type = "block" then "sizing_layout"
  else if i.node_type = "text" then "text"
  else if i.node_type = "image" then "images"
  else "sizing_layout"

/-- The fields of the layout_stats dict that estimate_diff_percent reads
(err models the "error" key being present). -/
structure LayoutStats where
  err : Bool
  sizing_rate : ℚ
  positioning_rate : ℚ
  zero_size : ℕ

/-- estimate_diff_percent of scripts/parity_baseline.py (lines 283-303). -/
def estimate_diff_percent (s : LayoutStats) : ℚ :=
  if s.err then 100
  else
    let base_diff := 100 * (1 - (s.sizing_rate * (6/10) + s.positioning_rate * (4/10)))
    let zero_penalty := min 30 ((s.zero_size : ℚ) * 2)
    min 100 (max 0 (base_diff + zero_penalty))

/-- The per-case branch of main (lines 416-427 and 440-451): a successful
capture gets the heuristic diff estimate from its layout stats, a failed
capture is recorded with estimated_diff_pct = 100. -/
def baseline_case_diff (success : Bool) (stats : LayoutStats) : ℚ :=
  if success then estimate_diff_percent stats else 100

/-- A per-case result as compute_weighted_metrics reads it: the case id and
the estimated_diff_pct key, which r.get(..., 100) defaults to 100 when absent. -/
structure CaseRes where
  case_id : String
  estimated_diff_pct : Option ℚ
deriving DecidableEq

/-- get_diffs inside compute_weighted_metrics (lines 312-313). -/
def get_diffs (results : List CaseRes) : List ℚ :=
  results.map (fun r => r.estimated_diff_pct.getD 100)

/-- The metrics dict returned by compute_weighted_metrics (lines 343-353).
worst_3_cases entries are (case_id, type tag, diff_pct). -/
structure WeightedMetrics where
  tier_a_threshold : ℚ
  tier_a_pass_rate : ℚ
  tier_a_builtin_pass : ℚ
  tier_a_websuite_pass : ℚ
  tier_b_median_diff : ℚ
  tier_b_weighted_mean : ℚ
  worst_3_cases : List (String × String × ℚ)
  builtin_mean_diff : ℚ
  websuite_mean_diff : ℚ
deriving DecidableEq

/-- Descending-by-diff order used for the worst-case sort (line 337);
Python's stable sort with reverse=True is insertionSort with this relation. -/
def desc_diff (a b : CaseRes × String) : Prop :=
  b.1.estimated_diff_pct.getD 100 ≤ a.1.estimated_diff_pct.getD 100

instance : DecidableRel desc_diff :=
  fun _ _ => inferInstanceAs (Decidable (_ ≤ _))

/-- compute_weighted_metrics of scripts/parity_baseline.py (lines 306-353). -/
def compute_weighted_metrics (builtin_results websuite_results : List CaseRes) :
    WeightedMetrics :=
  let builtin_diffs := get_diffs builtin_results
  let websuite_diffs := get_diffs websuite_results
  let builtin_pass : ℚ :=
    (builtin_diffs.countP (fun d => decide (d ≤ TIER_A_THRESHOLD)) : ℚ) /
      ((max 1 builtin_diffs.length : ℕ) : ℚ)
  let websuite_pass : ℚ :=
    (websuite_diffs.countP (fun d => decide (d ≤ TIER_A_THRESHOLD)) : ℚ) /
      ((max 1 websuite_diffs.length : ℕ) : ℚ)
  let weighted_pass_rate := builtin_pass * BUILTINS_WEIGHT + websuite_pass * WEBSUITE_WEIGHT
  let all_diffs := builtin_diffs ++ websuite_diffs
  let sorted_diffs := List.insertionSort (fun a b : ℚ => a ≤ b) all_diffs
  let median_diff : ℚ :=
    if sorted_diffs.isEmpty then 100 else sorted_diffs.getD (all_diffs.length / 2) 0
  let weighted_median :=
    (builtin_diffs.sum / ((max 1 builtin_diffs.length : ℕ) : ℚ)) * BUILTINS_WEIGHT +
    (websuite_diffs.sum / ((max 1 websuite_diffs.length : ℕ) : ℚ)) * WEBSUITE_WEIGHT
  let all_results := builtin_results.map (fun r => (r, "builtin")) ++
    websuite_results.map (fun r => (r, "websuite"))
  let sorted_results := List.insertionSort desc_diff all_results
  let worst_3 := (sorted_results.take 3).map
    (fun rt => (rt.1.case_id, rt.2, rt.1.estimated_diff_pct.getD 100))
  { tier_a_threshold := TIER_A_THRESHOLD,
    tier_a_pass_rate := weighted_pass_rate,
    tier_a_builtin_pass := builtin_pass,
    tier_a_websuite_pass := websuite_pass,
    tier_b_median_diff := median_diff,
    tier_b_weighted_mean := weighted_median,
    worst_3_cases := worst_3,
    builtin_mean_diff := builtin_diffs.sum / ((max 1 builtin_diffs.length : ℕ) : ℚ),
    websuite_mean_diff := websuite_diffs.sum / ((max 1 websuite_diffs.length : ℕ) : ℚ) }

/-- A per-category work order of generate_workorders, restricted to the fields
the claims are about (id/title/description/acceptance_criteria/created are
string formatting; affected_cases is a display heuristic). -/
structure CatOrder where
  cluster : String
  issue_count : ℕ
  priority : String
deriving DecidableEq

/-- The top-failures summary work order (lines 689-707). -/
structure TopOrder where
  priority : String
  cases : List (String × String × ℚ)
deriving DecidableEq

/-- Descending-by-count order used on the clusters dict items (line 659);
Python's stable sorted with key -count is insertionSort with this relation. -/
def desc_count (a b : String × ℕ) : Prop := b.2 ≤ a.2

instance : DecidableRel desc_count := fun a b => Nat.decLe b.2 a.2

instance : IsTotal (String × ℕ) desc_count := ⟨fun a b => le_total b.2 a.2⟩

instance : IsTrans (String × ℕ) desc_count := ⟨fun _ _ _ h1 h2 => le_trans h2 h1⟩

/-- generate_workorders of scripts/parity_baseline.py (lines 654-709): one
work order per cluster with non-zero count, visited in descending count order
(count = 0 is skipped by the continue), priority high when count > 10 else
medium; plus, when the worst-case list is nonempty, the critical top-failures
order. Returns (per-category orders in creation order, optional summary order). -/
def generate_workorders (clusters : List (String × ℕ))
    (worst_cases : List (String × String × ℚ)) : List CatOrder × Option TopOrder :=
  let sorted_clusters := List.insertionSort desc_count clusters
  let category_orders := sorted_clusters.filterMap (fun c =>
    if c.2 = 0 then none
    else some ⟨c.1, c.2, if 10 < c.2 then "high" else "medium"⟩)
  let top_order := if worst_cases.isEmpty then none
    else some ⟨"critical", worst_cases⟩
  (category_orders, top_order)

/-! ## parity_gate.py -/

/-- compute_parity of scripts/parity_gate.py (lines 39-43): the report carries
the metrics dict, whose tier_b_weighted_mean key is always written by
compute_weighted_metrics. -/
def compute_parity (metrics : WeightedMetrics) : ℚ :=
  100 - metrics.tier_b_weighted_mean

/-- One entry of the regression list of check_regressions (lines 63-68). -/
structure Regression where
  case_id : String
  previous_diff : ℚ
  current_diff : ℚ
  delta : ℚ
deriving DecidableEq

/-- The per-case diff map a report induces (lines 50-56): case_id mapped to
estimated_diff_pct with the r.get(..., 100) default. -/
def results_to_diffs (rs : List CaseRes) : List (String × ℚ) :=
  rs.map (fun r => (r.case_id, r.estimated_diff_pct.getD 100))

/-- check_regressions of scripts/parity_gate.py (lines 46-70): a case of the
current report regresses when its diff exceeds the previous report's diff for
that case (100 when the case is absent there) by more than the threshold. -/
def check_regressions (current_results previous_results : List (String × ℚ))
    (threshold : ℚ) : List Regression :=
  current_results.filterMap (fun cr =>
    let previous_diff := (previous_results.lookup cr.1).getD 100
    let delta := cr.2 - previous_diff
    if threshold < delta then some ⟨cr.1, previous_diff, cr.2, delta⟩ else none)

/-- The final verdict of the gate's main (lines 161-169): exit code 0 exactly
when the parity minimum is met and no regression was found, else 1. -/
def gate_verdict_exit (parity minimum_parity : ℚ) (regressions : List Regression) : ℕ :=
  if minimum_parity ≤ parity ∧ regressions = [] then 0 else 1

/-! ## extract_parity_metrics.py -/

/-- One entry of the results list extract_metrics reads: the per-case threshold
and the pixel dict's diffPercent value, none when the key is absent. -/
structure TestEntry where
  case_id : String
  threshold : ℚ
  pixelDiffPercent : Option ℚ
  case_type : String
deriving DecidableEq

/-- The summary fields of the metrics dict built by extract_metrics. -/
structure ParityMetrics where
  total : ℕ
  passed : ℕ
  failed : ℕ
  average_diff : ℚ
  worst_diff : ℚ
deriving DecidableEq

/-- Python max(tests, key=diff): the diff of the first entry attaining the
maximum diff (0 for the sentinel used when the list is empty). -/
def first_max_diff (l : List ℚ) : ℚ :=
  match l with
  | [] => 0
  | x :: xs => xs.foldl (fun acc d => if acc < d then d else acc) x

/-- extract_metrics of scripts/extract_parity_metrics.py (lines 17-68).
Note line 29: diff_percent = pixel_data.get("diffPercent", 0.0) — an absent
diffPercent contributes 0.0, and then passes any nonnegative threshold. -/
def extract_metrics (results : List TestEntry) : ParityMetrics :=
  let tests := results.map (fun r =>
    let diff := r.pixelDiffPercent.getD 0
    (diff, decide (diff ≤ r.threshold)))
  let total_diff := (tests.map (fun t => t.1)).sum
  let total := tests.length
  let passed_count := tests.countP (fun t => t.2)
  { total := total,
    passed := passed_count,
    failed := total - passed_count,
    average_diff := if 0 < total then total_diff / (total : ℚ) else 0,
    worst_diff := first_max_diff (tests.map (fun t => t.1)) }

/-! ## Helper lemmas -/

/-- Does classify_issues count this issue in the sizing_layout bucket? -/
def is_sizing_pick (i : Issue) : Bool :=
  decide (i.issue_type = "zero_size") && decide (bucket_of i = "sizing_layout")

/-- Does classify_issues count this issue in the text bucket? -/
def is_text_pick (i : Issue) : Bool :=
  decide (i.issue_type = "zero_size") && decide (bucket_of i = "text")

/-- Does classify_issues count this issue in the images bucket? -/
def is_images_pick (i : Issue) : Bool :=
  decide (i.issue_type = "zero_size") && decide (bucket_of i = "images")

lemma bucket_cases (i : Issue) :
    bucket_of i = "sizing_layout" ∨ bucket_of i = "text" ∨ bucket_of i = "images" := by
  unfold bucket_of
  split
  · exact Or.inl rfl
  · split
    · exact Or.inr (Or.inl rfl)
    · split
      · exact Or.inr (Or.inr rfl)
      · exact Or.inl rfl

lemma classify_loop_spec (l : List Issue) :
    ∀ c : Clusters,
      l.foldl bump c =
        ⟨c.sizing_layout + l.countP is_sizing_pick, c.paint,
         c.text + l.countP is_text_pick, c.images + l.countP is_images_pick⟩ := by
  induction l with
  | nil => intro c; simp [List.countP_nil]
  | cons i l ih =>
    intro c
    rw [List.foldl_cons, ih (bump c i)]
    by_cases hz : i.issue_type = "zero_size"
    · by_cases h1 : i.node_type = "form_control" ∨ i.node_type = "block"
      · simp only [bump, bucket_of, hz, h1, if_true, if_pos]
        simp [is_sizing_pick, is_text_pick, is_images_pick, bucket_of,
          List.countP_cons, hz, h1]
        omega
      · by_cases ht : i.node_type = "text"
        · simp only [bump, hz, h1, ht, if_true, if_neg, if_pos]
          simp [is_sizing_pick, is_text_pick, is_images_pick, bucket_of,
            List.countP_cons, hz, h1, ht]
          omega
        · by_cases hi : i.node_type = "image"
          · simp only [bump, hz, h1, ht, hi]
            simp [is_sizing_pick, is_text_pick, is_images_pick, bucket_of,
              List.countP_cons, hz, h1, ht, hi]
            omega
          · simp only [bump, hz, h1, ht, hi]
            simp [is_sizing_pick, is_text_pick, is_images_pick, bucket_of,
              List.countP_cons, hz, h1, ht, hi]
            omega
    · simp only [bump, hz]
      simp [is_sizing_pick, is_text_pick, is_images_pick,
        List.countP_cons, hz]

lemma classify_issues_spec (l : List Issue) :
    classify_issues l =
      ⟨l.countP is_sizing_pick, 0, l.countP is_text_pick, l.countP is_images_pick⟩ := by
  rw [classify_issues, classify_loop_spec]
  simp

lemma count_buckets (l : List Issue) :
    l.countP is_sizing_pick + l.countP is_text_pick + l.countP is_images_pick
      = l.countP (fun i => decide (i.issue_type = "zero_size")) := by
  induction l with
  | nil => simp
  | cons i l ih =>
    simp only [List.countP_cons]
    by_cases hz : i.issue_type = "zero_size"
    · rcases bucket_cases i with h | h | h <;>
        simp [is_sizing_pick, is_text_pick, is_images_pick, hz, h] <;> omega
    · simp [is_sizing_pick, is_text_pick, is_images_pick, hz]
      omega

/-! ## Claim C6 -/

/-- C6: for every case identifier, get_threshold realizes the ordered
keyword-match policy: form → form_controls (12); image/gallery →
images_replaced (10); gradient → gradients_effects (15); sticky/scroll →
sticky_scroll (25); typography/text → text_rendering (20); otherwise the
default (15) — evaluated in that order as a first-match rule list. -/
theorem C6_threshold_keyword_order (s : String) :
    get_threshold s = first_match threshold_rules s 15 := by
  have h1 : thresh "form_controls" = 12 := by decide
  have h2 : thresh "images_replaced" = 10 := by decide
  have h3 : thresh "gradients_effects" = 15 := by decide
  have h4 : thresh "sticky_scroll" = 25 := by decide
  have h5 : thresh "text_rendering" = 20 := by decide
  have h6 : thresh "default" = 15 := by decide
  simp only [get_threshold, threshold_rules, first_match, h1, h2, h3, h4, h5, h6]

/-! ## Claim C9 -/

/-- C9: for every issues list, classify_issues returns a map whose key list is
exactly sizing_layout, paint, text, images; the four counts sum to the number
of zero_size issues in the input; and the paint count is always 0 — no
clustering rule ever targets the paint bucket. -/
theorem C9_classify_invariants (issues : List Issue) :
    (clusters_to_list (classify_issues issues)).map Prod.fst =
        ["sizing_layout", "paint", "text", "images"] ∧
    (classify_issues issues).paint = 0 ∧
    (classify_issues issues).sizing_layout + (classify_issues issues).paint +
        (classify_issues issues).text + (classify_issues issues).images =
      issues.countP (fun i => decide (i.issue_type = "zero_size")) := by
  refine ⟨rfl, ?_, ?_⟩
  · rw [classify_issues_spec]
  · rw [classify_issues_spec]
    have := count_buckets issues
    dsimp only
    omega

/-! ## Claim C5 -/

/-- C5: whenever every diff of the current report is at most 100 and the
regression threshold is nonnegative, a case absent from the previous report is
never reported by check_regressions: its implicit previous diff is 100, so its
delta cannot exceed the threshold. -/
theorem C5_missing_case_never_regresses (cur prev : List (String × ℚ)) (thr : ℚ)
    (cid : String) (hbound : ∀ p ∈ cur, p.2 ≤ 100) (hthr : 0 ≤ thr)
    (hlook : prev.lookup cid = none) :
    ∀ r ∈ check_regressions cur prev thr, r.case_id ≠ cid := by
  intro r hr hcid
  simp only [check_regressions, List.mem_filterMap] at hr
  obtain ⟨p, hp, hpr⟩ := hr
  by_cases hc : thr < p.2 - (prev.lookup p.1).getD 100
  · rw [if_pos hc] at hpr
    injection hpr with hpr
    have hfst : p.1 = cid := by rw [← hpr] at hcid; exact hcid
    rw [hfst, hlook] at hc
    have hle : p.2 ≤ 100 := hbound p hp
    simp only [Option.getD_none] at hc
    linarith
  · rw [if_neg hc] at hpr
    cases hpr

/-- Witness for C5 at a concrete input: a new case at diff 10 with an empty
previous report and threshold 2 is not reported. -/
theorem C5_witness :
    (∀ p ∈ [(("newcase", 10) : String × ℚ)], p.2 ≤ 100) ∧ ((0:ℚ) ≤ 2) ∧
    (List.lookup "newcase" ([] : List (String × ℚ)) = none) ∧
    ∀ r ∈ check_regressions [(("newcase", 10) : String × ℚ)] [] 2,
      r.case_id ≠ "newcase" := by
  refine ⟨?_, by norm_num, rfl, ?_⟩
  · intro p hp
    simp only [List.mem_singleton] at hp
    rw [hp]
    norm_num
  · exact C5_missing_case_never_regresses [("newcase", 10)] [] 2 "newcase"
      (by intro p hp; simp only [List.mem_singleton] at hp; rw [hp]; norm_num)
      (by norm_num) rfl

/-! ## Claim C7 -/

lemma workorder_filterMap_eq (l : List (String × ℕ)) :
    (l.filterMap (fun c => if c.2 = 0 then none
        else some (⟨c.1, c.2, if 10 < c.2 then "high" else "medium"⟩ : CatOrder)))
      = (l.filter (fun c => decide (c.2 ≠ 0))).map
          (fun c => ⟨c.1, c.2, if 10 < c.2 then "high" else "medium"⟩) := by
  induction l with
  | nil => rfl
  | cons c l ih => by_cases h : c.2 = 0 <;> simp [h, ih]

/-- C7: generate_workorders gives per-category priority high exactly when the
category's count exceeds 10 (count = 10 yields medium), emits one work order
per category with non-zero count in descending count order, and emits the
critical top-failures order exactly when the worst-case list is nonempty. -/
theorem C7_workorder_rules (clusters : List (String × ℕ))
    (worst : List (String × String × ℚ)) :
    (∀ wo ∈ (generate_workorders clusters worst).1,
        wo.priority = if 10 < wo.issue_count then "high" else "medium") ∧
    List.Sorted (fun a b : CatOrder => b.issue_count ≤ a.issue_count)
        (generate_workorders clusters worst).1 ∧
    ((generate_workorders clusters worst).1.map
        (fun wo => (wo.cluster, wo.issue_count))).Perm
      (clusters.filter (fun c => decide (c.2 ≠ 0))) ∧
    ((generate_workorders clusters worst).2 = none ↔ worst = []) ∧
    (∀ t, (generate_workorders clusters worst).2 = some t →
        t.priority = "critical" ∧ t.cases = worst) := by
  refine ⟨?_, ?_, ?_, ?_, ?_⟩
  · intro wo hwo
    simp only [generate_workorders, List.mem_filterMap] at hwo
    obtain ⟨c, _, hc⟩ := hwo
    by_cases h : c.2 = 0
    · rw [if_pos h] at hc; cases hc
    · rw [if_neg h] at hc
      injection hc with hc
      rw [← hc]
  · simp only [generate_workorders, workorder_filterMap_eq]
    rw [List.Sorted, List.pairwise_map]
    refine List.Pairwise.imp ?_
      (List.Pairwise.sublist (List.filter_sublist _)
        (List.sorted_insertionSort desc_count clusters))
    intro a b hab
    exact hab
  · simp only [generate_workorders, workorder_filterMap_eq, List.map_map]
    have hmap : ((fun wo : CatOrder => (wo.cluster, wo.issue_count)) ∘
        (fun c : String × ℕ => (⟨c.1, c.2, if 10 < c.2 then "high" else "medium"⟩ : CatOrder)))
        = fun c : String × ℕ => c := by
      funext c
      rfl
    rw [hmap]
    simpa using (List.perm_insertionSort desc_count clusters).filter _
  · simp only [generate_workorders]
    by_cases h : worst.isEmpty
    · rw [if_pos h]
      simp [List.isEmpty_iff] at h
      simp [h]
    · rw [if_neg h]
      simp [List.isEmpty_iff] at h
      simp [h]
  · intro t ht
    simp only [generate_workorders] at ht
    by_cases h : worst.isEmpty
    · rw [if_pos h] at ht; cases ht
    · rw [if_neg h] at ht
      injection ht with ht
      rw [← ht]
      exact ⟨rfl, rfl⟩

/-- Witness for C7 at a concrete input: a sizing_layout count of exactly 10
produces a medium-priority work order. -/
theorem C7_witness :
    ((⟨"sizing_layout", 10, "medium"⟩ : CatOrder) ∈
      (generate_workorders [("sizing_layout", 10), ("paint", 0)]
        [("card-grid", "websuite", 50)]).1) ∧
    ("medium" : String) = (if 10 < (10:ℕ) then "high" else "medium") := by
  refine ⟨by decide, ?_⟩
  exact (C7_workorder_rules [("sizing_layout", 10), ("paint", 0)]
      [("card-grid", "websuite", 50)]).1 ⟨"sizing_layout", 10, "medium"⟩ (by decide)

/-! ## Claim C4 -/

mutual

lemma walk_issues_eq : ∀ (n : LayoutNode) (d : ℕ),
    walk_issues n d = (walk_boxes n d).filterMap zero_size_pick
  | .node _ _ w h ty cs, d => by
    rw [walk_issues, walk_boxes, List.filterMap_cons, walk_issues_list_eq cs (d + 1)]
    dsimp only [zero_size_pick]
    by_cases hc : ¬(0 < w ∧ 0 < h) ∧ 1 < d ∧ ty ≠ "text" ∧ ty ≠ "anonymous_block"
    · rw [if_pos hc, if_pos hc]; rfl
    · rw [if_neg hc, if_neg hc]; rfl

lemma walk_issues_list_eq : ∀ (ns : List LayoutNode) (d : ℕ),
    walk_issues_list ns d = (walk_boxes_list ns d).filterMap zero_size_pick
  | [], _ => by rw [walk_issues_list, walk_boxes_list]; rfl
  | c :: cs, d => by
    rw [walk_issues_list, walk_boxes_list, List.filterMap_append,
      walk_issues_eq c d, walk_issues_list_eq cs d]

end

/-- A tree whose only zero-area box sits at depth 1, directly below the root:
the root is 800 x 600, its child is a form_control of width 0. -/
def c4_depth1_tree : LayoutNode :=
  .node 0 0 800 600 "block" [.node 0 0 0 20 "form_control" []]

/-- The claim's end-to-end tree: one non-text, non-root box of type
form_control with zero width at depth 2. -/
def c4_scenario_tree : LayoutNode :=
  .node 0 0 800 600 "block"
    [.node 0 0 800 600 "block" [.node 0 0 0 20 "form_control" []]]

/-- C4 counterexample: c4_depth1_tree contains a box strictly below the root
(the walk visits it at depth 1) with zero rendered area and type form_control,
yet analyze_layout flags no issue at all and every cluster count is 0 — the
code only flags boxes at depth strictly greater than 1, not every box strictly
below the root. -/
theorem C4_counterexample :
    walk_boxes c4_depth1_tree 0 =
      [⟨"block", 800, 600, 0⟩, ⟨"form_control", 0, 20, 1⟩] ∧
    analyze_issues c4_depth1_tree = [] ∧
    classify_issues (analyze_issues c4_depth1_tree) = ⟨0, 0, 0, 0⟩ := by
  refine ⟨by decide, by decide, by decide⟩

/-- C4 amended: every box visited at depth greater than 1 (at least two levels
below the root) with zero rendered area and a type other than text and
anonymous_block is flagged as exactly one zero-size issue — the issue list is
exactly the filterMap of the per-box rule over the visited boxes — and
classify_issues buckets each issue by its node_type (form_control/block →
sizing_layout, text → text, image → images, anything else → sizing_layout);
in particular the scenario tree with one zero-width form_control at depth 2
yields exactly one sizing_layout issue and zero issues elsewhere. -/
theorem C4_amended :
    (∀ (t : LayoutNode) (d : ℕ),
        walk_issues t d = (walk_boxes t d).filterMap zero_size_pick) ∧
    (∀ issues : List Issue,
        classify_issues issues =
          ⟨issues.countP is_sizing_pick, 0, issues.countP is_text_pick,
           issues.countP is_images_pick⟩) ∧
    analyze_issues c4_scenario_tree = [⟨"zero_size", "form_control", 2⟩] ∧
    classify_issues (analyze_issues c4_scenario_tree) = ⟨1, 0, 0, 0⟩ := by
  refine ⟨walk_issues_eq, classify_issues_spec, by decide, by decide⟩

/-! ## Claim C1 -/

/-- A parity_test_results entry whose pixel dict carries no diffPercent, as
produced for an erroring case. -/
def c1_entry : TestEntry := ⟨"broken-case", 15, none, "builtins"⟩

/-- C1: parity_baseline does record a failed capture with
estimated_diff_pct = 100, but extract_metrics contradicts the worst-case
policy: a result whose pixel data carries no diffPercent contributes 0 (the
dict get default at scripts/extract_parity_metrics.py line 29), so the case
counts as passed and pulls the average and worst diff toward 0, not 100. -/
theorem C1_missing_diff_percent_counts_as_zero :
    (∀ stats : LayoutStats, baseline_case_diff false stats = 100) ∧
    extract_metrics [c1_entry] =
      { total := 1, passed := 1, failed := 0, average_diff := 0, worst_diff := 0 } := by
  constructor
  · intro stats; rfl
  · norm_num [extract_metrics, c1_entry, first_max_diff]

/-! ## Claim C2 -/

/-- Five builtin-group case results, each at diff 10. -/
def c2_builtins : List CaseRes :=
  [⟨"new_tab", some 10⟩, ⟨"about", some 10⟩, ⟨"settings", some 10⟩,
   ⟨"chrome_rustkit", some 10⟩, ⟨"shelf", some 10⟩]

/-- Eight websuite-group case results, each at diff 40. -/
def c2_websuite : List CaseRes :=
  [⟨"article-typography", some 40⟩, ⟨"card-grid", some 40⟩,
   ⟨"css-selectors", some 40⟩, ⟨"flex-positioning", some 40⟩,
   ⟨"form-elements", some 40⟩, ⟨"gradient-backgrounds", some 40⟩,
   ⟨"image-gallery", some 40⟩, ⟨"sticky-scroll", some 40⟩]

/-- C2: with 5 builtin cases at diff 10 and 8 websuite cases at diff 40, the
group pass fractions at the shared 25 threshold are 1 and 0, the weighted
Tier-A pass rate is 0.6, the Tier-B weighted mean is 0.6 x 10 + 0.4 x 40 = 22,
compute_parity gives 100 - 22 = 78, and the gate at minimum parity 80 exits
non-zero (verdict fail). -/
theorem C2_end_to_end :
    (compute_weighted_metrics c2_builtins c2_websuite).tier_a_builtin_pass = 1 ∧
    (compute_weighted_metrics c2_builtins c2_websuite).tier_a_websuite_pass = 0 ∧
    (compute_weighted_metrics c2_builtins c2_websuite).tier_a_pass_rate = 3/5 ∧
    (compute_weighted_metrics c2_builtins c2_websuite).tier_b_weighted_mean = 22 ∧
    compute_parity (compute_weighted_metrics c2_builtins c2_websuite) = 78 ∧
    gate_verdict_exit
      (compute_parity (compute_weighted_metrics c2_builtins c2_websuite)) 80 [] = 1 := by
  have hb : get_diffs c2_builtins = [10, 10, 10, 10, 10] := by decide
  have hw : get_diffs c2_websuite = [40, 40, 40, 40, 40, 40, 40, 40] := by decide
  have hcb : List.countP (fun d => decide (d ≤ TIER_A_THRESHOLD))
      ([10, 10, 10, 10, 10] : List ℚ) = 5 := by decide
  have hcw : List.countP (fun d => decide (d ≤ TIER_A_THRESHOLD))
      ([40, 40, 40, 40, 40, 40, 40, 40] : List ℚ) = 0 := by decide
  have h1 : (compute_weighted_metrics c2_builtins c2_websuite).tier_a_builtin_pass = 1 := by
    simp only [compute_weighted_metrics, hb, hw, hcb]
    norm_num
  have h2 : (compute_weighted_metrics c2_builtins c2_websuite).tier_a_websuite_pass = 0 := by
    simp only [compute_weighted_metrics, hb, hw, hcw]
    norm_num
  have h3 : (compute_weighted_metrics c2_builtins c2_websuite).tier_a_pass_rate = 3/5 := by
    simp only [compute_weighted_metrics, hb, hw, hcb, hcw]
    norm_num [BUILTINS_WEIGHT, WEBSUITE_WEIGHT]
  have h4 : (compute_weighted_metrics c2_builtins c2_websuite).tier_b_weighted_mean = 22 := by
    simp only [compute_weighted_metrics, hb, hw]
    norm_num [BUILTINS_WEIGHT, WEBSUITE_WEIGHT]
  have h5 : compute_parity (compute_weighted_metrics c2_builtins c2_websuite) = 78 := by
    rw [compute_parity, h4]
    norm_num
  refine ⟨h1, h2, h3, h4, h5, ?_⟩
  rw [h5]
  norm_num [gate_verdict_exit]

/-! ## Claim C8 -/

lemma get_diffs_append (b w : List CaseRes) :
    get_diffs (b ++ w) = get_diffs b ++ get_diffs w := by
  simp [get_diffs]

/-- C8 counterexample: with one builtin case at diff 0 and one websuite case at
diff 10, tier_b_median_diff is 10 (the element at index length / 2 of the
sorted diffs), while the unweighted median of the two diffs is 5 — for an even
number of cases the reported value is not the median. -/
theorem C8_counterexample :
    (compute_weighted_metrics [⟨"a", some 0⟩] [⟨"b", some 10⟩]).tier_b_median_diff = 10 ∧
    median [0, 10] = 5 ∧ ((10 : ℚ) ≠ 5) := by
  refine ⟨by decide, by norm_num [median], by norm_num⟩

/-- C8 amended: tier_b_median_diff is the upper median — the element at index
length / 2 of the ascending-sorted diffs of all cases regardless of group — so
it agrees with the unweighted median exactly when the total case count is odd;
it depends only on the combined case list, not on the group split. -/
theorem C8_amended (b w : List CaseRes) :
    ((get_diffs b ++ get_diffs w).length % 2 = 1 →
      (compute_weighted_metrics b w).tier_b_median_diff = median (get_diffs (b ++ w))) ∧
    (compute_weighted_metrics b w).tier_b_median_diff =
      (compute_weighted_metrics (b ++ w) []).tier_b_median_diff := by
  constructor
  · intro hodd
    have hne : get_diffs b ++ get_diffs w ≠ [] := by
      intro h0
      rw [h0] at hodd
      simp at hodd
    have hsne : List.insertionSort (fun a b : ℚ => a ≤ b)
        (get_diffs b ++ get_diffs w) ≠ [] := by
      intro h0
      have hlen := congrArg List.length h0
      rw [List.length_insertionSort] at hlen
      exact hne (List.length_eq_zero.mp hlen)
    simp only [compute_weighted_metrics, median, get_diffs_append]
    rw [if_pos hodd, if_neg (by simpa [List.isEmpty_iff] using hsne)]
  · have h0 : get_diffs ([] : List CaseRes) = [] := rfl
    simp only [compute_weighted_metrics, get_diffs_append, h0, List.append_nil]

/-- Witness for C8 at a concrete input: with a single case (odd count) the
reported value is the median. -/
theorem C8_witness :
    ((get_diffs [(⟨"a", some 7⟩ : CaseRes)] ++ get_diffs ([] : List CaseRes)).length % 2 = 1) ∧
    (compute_weighted_metrics [(⟨"a", some 7⟩ : CaseRes)] []).tier_b_median_diff =
      median (get_diffs ([(⟨"a", some 7⟩ : CaseRes)] ++ [])) :=
  ⟨by decide, (C8_amended [⟨"a", some 7⟩] []).1 (by decide)⟩

/-! ## run_test reduction lemmas (for C3 and C10) -/

lemma pixel_runs_loop_ok_length (env : Env) :
    ∀ (k idx : ℕ) (l : List ℚ), pixel_runs_loop env k idx = .ok l → l.length = k := by
  intro k
  induction k with
  | zero =>
    intro idx l h
    simp only [pixel_runs_loop] at h
    cases h
    rfl
  | succ k ih =>
    intro idx l h
    simp only [pixel_runs_loop] at h
    cases hce : env.captureError idx with
    | some e => rw [hce] at h; cases h
    | none =>
      rw [hce] at h
      cases hfe : env.frameExists idx with
      | false => rw [hfe] at h; simp at h
      | true =>
        rw [hfe] at h
        simp only [if_pos rfl] at h
        cases hp : env.pixelResult idx with
        | error e => rw [hp] at h; cases h
        | ok pr =>
          rw [hp] at h
          cases hrec : pixel_runs_loop env k (idx + 1) with
          | error e => rw [hrec] at h; cases h
          | ok rest =>
            rw [hrec] at h
            cases h
            simp [ih (idx + 1) rest hrec]

lemma run_test_no_baseline (env : Env) (cid : String) (N : ℕ) (mv : ℚ)
    (hb : env.baselineExists = false) :
    run_test env cid N mv = { initResult cid with error := some "No Chrome baseline" } := by
  rw [run_test, hb, if_neg (by simp)]

lemma run_test_loop_error (env : Env) (cid : String) (N : ℕ) (mv : ℚ) (e : String)
    (hb : env.baselineExists = true) (hl : pixel_runs_loop env N 0 = .error e) :
    run_test env cid N mv = { initResult cid with error := some e } := by
  rw [run_test, hb, if_pos rfl, hl]

lemma run_test_ok_nil (env : Env) (cid : String) (N : ℕ) (mv : ℚ)
    (hb : env.baselineExists = true) (hl : pixel_runs_loop env N 0 = .ok []) :
    run_test env cid N mv =
      { initResult cid with
        pixel_runs := some [],
        diff_pct := some 100,
        passed := decide ((100 : ℚ) ≤ get_threshold cid) } := by
  rw [run_test, hb, if_pos rfl, hl]
  rfl

lemma run_test_ok_cons (env : Env) (cid : String) (N : ℕ) (mv : ℚ) (x : ℚ) (xs : List ℚ)
    (hb : env.baselineExists = true) (hl : pixel_runs_loop env N 0 = .ok (x :: xs)) :
    run_test env cid N mv =
      { case_id := cid, threshold := get_threshold cid,
        passed := decide (median (x :: xs) ≤ get_threshold cid),
        error := none, pixel_runs := some (x :: xs),
        diff_pct_median := some (median (x :: xs)),
        diff_pct_min := some (list_min (x :: xs)),
        diff_pct_max := some (list_max (x :: xs)),
        diff_pct_variance := some (list_max (x :: xs) - list_min (x :: xs)),
        stable := some (decide (3 ≤ N) &&
          decide (list_max (x :: xs) - list_min (x :: xs) ≤ mv)),
        diff_pct := some (median (x :: xs)) } := by
  rw [run_test, hb, if_pos rfl, hl]
  rfl

/-! ## Claim C10 -/

/-- C10: whenever run_test returns a result carrying an error entry (missing
baseline, capture failure, missing capture output, or pixel-compare error),
that result's passed field is false and the result has no diff_pct —
pass/fail and the representative diff are only computed on the error-free path. -/
theorem C10_error_result_never_passes (env : Env) (cid : String) (N : ℕ) (mv : ℚ)
    (e : String) (herr : (run_test env cid N mv).error = some e) :
    (run_test env cid N mv).passed = false ∧ (run_test env cid N mv).diff_pct = none := by
  cases hb : env.baselineExists with
  | false => rw [run_test_no_baseline env cid N mv hb]; exact ⟨rfl, rfl⟩
  | true =>
    cases hl : pixel_runs_loop env N 0 with
    | error e2 => rw [run_test_loop_error env cid N mv e2 hb hl]; exact ⟨rfl, rfl⟩
    | ok l =>
      exfalso
      cases l with
      | nil => rw [run_test_ok_nil env cid N mv hb hl] at herr; cases herr
      | cons x xs => rw [run_test_ok_cons env cid N mv x xs hb hl] at herr; cases herr

/-- A run environment with no baseline present. -/
def c10_env : Env := ⟨false, fun _ => none, fun _ => true, fun _ => .ok (some 5)⟩

/-- Witness for C10 at a concrete input: with no Chrome baseline the result
carries an error, is not passed, and has no diff_pct. -/
theorem C10_witness :
    (run_test c10_env "new_tab" 1 (1/10)).error = some "No Chrome baseline" ∧
    (run_test c10_env "new_tab" 1 (1/10)).passed = false ∧
    (run_test c10_env "new_tab" 1 (1/10)).diff_pct = none :=
  ⟨by decide,
   C10_error_result_never_passes c10_env "new_tab" 1 (1/10) "No Chrome baseline" (by decide)⟩

/-! ## Claim C3 -/

/-- A run environment where capture always succeeds and every pixel compare
reports diffPercent 5. -/
def c3_env : Env := ⟨true, fun _ => none, fun _ => true, fun _ => .ok (some 5)⟩

/-- C3 counterexample: a single-iteration (N = 1 < 3) error-free run produces
a result whose stable key is present with value False — not absent as the
claim requires (scripts/parity_test.py line 350 computes
(iterations >= 3) and (...), which is False, not undefined, below 3 runs). -/
theorem C3_counterexample :
    (run_test c3_env "new_tab" 1 (1/10)).error = none ∧
    (run_test c3_env "new_tab" 1 (1/10)).stable = some false ∧
    (run_test c3_env "new_tab" 1 (1/10)).stable ≠ none := by
  refine ⟨by decide, by decide, by decide⟩

/-- C3 amended: on the error-free path the stable key is absent only when the
iteration count is 0; for 1 ≤ N < 3 it is present and False; for N ≥ 3 it is
present and true exactly when (max - min) of the pixel-diff series is at most
the configured variance ceiling. -/
theorem C3_stable_flag (env : Env) (cid : String) (N : ℕ) (mv : ℚ)
    (herr : (run_test env cid N mv).error = none) :
    (N = 0 → (run_test env cid N mv).stable = none) ∧
    (1 ≤ N → N < 3 → (run_test env cid N mv).stable = some false) ∧
    (3 ≤ N → ∃ mn mx, (run_test env cid N mv).diff_pct_min = some mn ∧
        (run_test env cid N mv).diff_pct_max = some mx ∧
        (run_test env cid N mv).stable = some (decide (mx - mn ≤ mv))) := by
  cases hb : env.baselineExists with
  | false => rw [run_test_no_baseline env cid N mv hb] at herr; cases herr
  | true =>
    cases hl : pixel_runs_loop env N 0 with
    | error e => rw [run_test_loop_error env cid N mv e hb hl] at herr; cases herr
    | ok l =>
      have hlen := pixel_runs_loop_ok_length env N 0 l hl
      refine ⟨?_, ?_, ?_⟩
      · intro h0
        cases l with
        | nil => rw [run_test_ok_nil env cid N mv hb hl]; rfl
        | cons x xs => rw [h0] at hlen; simp at hlen
      · intro h1 h3
        cases l with
        | nil => rw [← hlen] at h1; simp at h1
        | cons x xs =>
          rw [run_test_ok_cons env cid N mv x xs hb hl]
          have hd : decide (3 ≤ N) = false := decide_eq_false (by omega)
          simp [hd]
      · intro h3
        cases l with
        | nil => rw [← hlen] at h3; simp at h3
        | cons x xs =>
          refine ⟨list_min (x :: xs), list_max (x :: xs), ?_, ?_, ?_⟩ <;>
            rw [run_test_ok_cons env cid N mv x xs hb hl]
          have hd : decide (3 ≤ N) = true := decide_eq_true h3
          simp [hd]

/-- Witness for C3 at a concrete input: one error-free iteration at diff 5
has stable present and False. -/
theorem C3_witness :
    (run_test c3_env "about" 1 (1/10)).error = none ∧
    (run_test c3_env "about" 1 (1/10)).stable = some false :=
  ⟨by decide,
   (C3_stable_flag c3_env "about" 1 (1/10) (by decide)).2.1 (by decide) (by decide)⟩

end HiwaveParity
